import Mathlib

/-!
Verification development for the AzureMcpProxy repository.

The subject is the session-oriented SSE transport and JSON-RPC dispatch layer
in `src/simple-sse.ts` (class `SimpleSSEManager`).  We give a shallow
embedding of:

* the JSON value model used for request/response envelopes, with JavaScript
  truthiness semantics (the source tests fields with `!x` and `if (x)`),
* the `POST /sse` JSON-RPC dispatcher (`setupRoutes`, lines 361-681),
  including the tool-call switch and its required-argument checks,
* the per-tool "Direct" handlers as far as their control flow is concerned
  (connection check, backend-adapter call sequence, error wrapping); the
  formatting of backend data into human-readable markdown text is out of the
  specified core (spec section 1) and is abstracted into an adapter oracle,
* the `GET /sse` stream (endpoint event, hello message, heartbeat timer) and
  the heartbeat/disconnect session life cycle as a step machine.

Backend invocations are made observable: the dispatcher returns, next to the
HTTP status and the response envelope, the list of adapter capabilities it
invoked, so that "no backend call occurs" claims are statable.
-/

/-- JSON values.  Numbers are modelled as integers (no claim depends on
fractional numerics).  A JavaScript `undefined` is represented by absence,
i.e. by `Option.none` at use sites, never by a `Json` constructor. -/
inductive Json where
  | null : Json
  | bool (b : Bool) : Json
  | num (n : Int) : Json
  | str (s : String) : Json
  | arr (elems : List Json) : Json
  | obj (fields : List (String × Json)) : Json

/-- JavaScript truthiness: `null`, `false`, `0` and `""` are falsy;
every array and object is truthy. -/
def jsTruthy : Json → Bool
  | .null => false
  | .bool b => b
  | .num n => n != 0
  | .str s => s != ""
  | .arr _ => true
  | .obj _ => true

/-- Truthiness of a possibly-absent value: `undefined` is falsy. -/
def jsTruthyOpt : Option Json → Bool
  | none => false
  | some v => jsTruthy v

/-- Property access on an association list (first binding wins). -/
def lookupList : List (String × Json) → String → Option Json
  | [], _ => none
  | (k, v) :: rest, key => if k = key then some v else lookupList rest key

/-- Property access `j.key`: `undefined` (i.e. `none`) on non-objects. -/
def lookupJson : Json → String → Option Json
  | .obj fields, key => lookupList fields key
  | _, _ => none

/-- Build a JSON object from fields whose values may be `undefined`;
`JSON.stringify` (used by `res.json`) drops `undefined`-valued keys. -/
def jsonObj (fields : List (String × Option Json)) : Json :=
  .obj (fields.filterMap (fun p => p.2.map (fun v => (p.1, v))))

/-- JavaScript template-literal rendering of a value (as in
`Failed to get work item ${workItemId}` or the search placeholder text). -/
def jsDisplay : Json → String
  | .null => "null"
  | .bool true => "true"
  | .bool false => "false"
  | .num n => toString n
  | .str s => s
  | .arr elems => String.intercalate "," (elems.map (fun e => jsDisplayString e))
  | .obj _ => "[object Object]"
where
  jsDisplayString : Json → String
    | .str s => s
    | .num n => toString n
    | _ => ""

/-- Template rendering of a possibly-absent value (`undefined` prints as the
word undefined, as in the unsupported-tool message). -/
def jsDisplayOpt : Option Json → String
  | none => "undefined"
  | some v => jsDisplay v

/-- The JavaScript expression `v || default` rendered into a template:
the value when truthy, otherwise the default string. -/
def jsOrDisplay (o : Option Json) (d : String) : String :=
  match o with
  | some v => if jsTruthy v then jsDisplay v else d
  | none => d

/-- Prefix test on character lists (helper for substring containment). -/
def startsWithChars : List Char → List Char → Bool
  | [], _ => true
  | _ :: _, [] => false
  | a :: as, b :: bs => a == b && startsWithChars as bs

/-- Substring containment on character lists. -/
def containsChars (pat : List Char) : List Char → Bool
  | [] => pat.isEmpty
  | c :: rest => startsWithChars pat (c :: rest) || containsChars pat rest

/-- `strContains s pat` is true when `pat` occurs as a substring of `s`. -/
def strContains (s pat : String) : Bool :=
  containsChars pat.toList s.toList

/-! ## Backend Client Adapter

The dispatcher's tool handlers (`getWorkItemDirect` and friends, lines 35-272
of `simple-sse.ts`) each check the connection handle, invoke one or two
capabilities of the `azure-devops-node-api` client, and format the returned
data as text.  Per spec section 1, the backend operations themselves and the
human-readable formatting are outside the specified core, so a capability is
modelled as an oracle returning either the formatted text (or, for
`queryByWiql`, the matched work-item ids) or a thrown error message.  The
control flow around the oracle — the not-initialized check, the error
wrapping with a tool-specific text, and the call sequence — is
modelled from the source. -/

/-- One invocation of a Backend Client Adapter capability. -/
inductive AdapterCall where
  | getWorkItem (workItemId : Json)
  | getProjects
  | getProject (projectId : Json)
  | createWorkItem (project ty title : Json) (description assignedTo : Option Json)
  | queryByWiql (wiql : Json)
  | getWorkItems (ids : List Int)
  | getRepositories (project : Option Json)
  | getRepository (repositoryId : Json) (project : Option Json)

/-- The Backend Client Adapter as an oracle: each capability yields either a
result or a thrown error message. -/
structure Adapter where
  getWorkItem : Json → Except String String
  getProjects : Except String String
  getProject : Json → Except String String
  createWorkItem : Json → Json → Json → Option Json → Option Json → Except String String
  queryByWiql : Json → Except String (List Int)
  getWorkItems : List Int → Except String String
  getRepositories : Option Json → Except String String
  getRepository : Json → Option Json → Except String String

/-- State of a `SimpleSSEManager` instance as seen by the POST /sse handler:
whether `azureConnection` is non-null (set once in the constructor when both
credentials are present), the adapter oracle, and the ambient clock reading
used by the `ping` branch (time is modelled as an oracle string).
No branch of the handler assigns to any of these fields. -/
structure ServerState where
  azureConnection : Bool
  adapter : Adapter
  timestamp : String

/-- Outcome of a tool handler: the returned text or the thrown message,
together with the adapter capabilities invoked on the way. -/
abbrev DirectResult := Except String String × List AdapterCall

/-- `getWorkItemDirect` (lines 35-69): connection check, one
`getWorkItem` call, errors rethrown with a tool-specific text. -/
def getWorkItemDirect (st : ServerState) (workItemId : Json) : DirectResult :=
  if st.azureConnection = false then
    (.error "Azure DevOps connection not initialized", [])
  else
    match st.adapter.getWorkItem workItemId with
    | .ok text => (.ok text, [.getWorkItem workItemId])
    | .error e =>
        (.error ("Failed to get work item " ++ jsDisplay workItemId ++ ": " ++ e),
         [.getWorkItem workItemId])

/-- `listProjectsDirect` (lines 71-93). -/
def listProjectsDirect (st : ServerState) : DirectResult :=
  if st.azureConnection = false then
    (.error "Azure DevOps connection not initialized", [])
  else
    match st.adapter.getProjects with
    | .ok text => (.ok text, [.getProjects])
    | .error e => (.error ("Failed to list projects: " ++ e), [.getProjects])

/-- `getProjectDirect` (lines 95-118). -/
def getProjectDirect (st : ServerState) (projectId : Json) : DirectResult :=
  if st.azureConnection = false then
    (.error "Azure DevOps connection not initialized", [])
  else
    match st.adapter.getProject projectId with
    | .ok text => (.ok text, [.getProject projectId])
    | .error e =>
        (.error ("Failed to get project " ++ jsDisplay projectId ++ ": " ++ e),
         [.getProject projectId])

/-- `createWorkItemDirect` (lines 120-173): the patch document includes the
description and assigned-to fields only when they are truthy. -/
def createWorkItemDirect (st : ServerState) (project ty title : Json)
    (description assignedTo : Option Json) : DirectResult :=
  if st.azureConnection = false then
    (.error "Azure DevOps connection not initialized", [])
  else
    let desc := if jsTruthyOpt description then description else none
    let asg := if jsTruthyOpt assignedTo then assignedTo else none
    match st.adapter.createWorkItem project ty title desc asg with
    | .ok text => (.ok text, [.createWorkItem project ty title desc asg])
    | .error e =>
        (.error ("Failed to create work item: " ++ e),
         [.createWorkItem project ty title desc asg])

/-- `queryWorkItemsDirect` (lines 175-201): two-step call — `queryByWiql`
then, when any ids matched, `getWorkItems`.  The `project` parameter is
accepted but never used by the source. -/
def queryWorkItemsDirect (st : ServerState) (wiql : Json) (_project : Option Json) :
    DirectResult :=
  if st.azureConnection = false then
    (.error "Azure DevOps connection not initialized", [])
  else
    match st.adapter.queryByWiql wiql with
    | .error e => (.error ("Failed to query work items: " ++ e), [.queryByWiql wiql])
    | .ok ids =>
        if ids.isEmpty then
          (.ok "No work items found matching the query.", [.queryByWiql wiql])
        else
          match st.adapter.getWorkItems ids with
          | .ok text => (.ok text, [.queryByWiql wiql, .getWorkItems ids])
          | .error e =>
              (.error ("Failed to query work items: " ++ e),
               [.queryByWiql wiql, .getWorkItems ids])

/-- `listRepositoriesDirect` (lines 203-225). -/
def listRepositoriesDirect (st : ServerState) (project : Option Json) : DirectResult :=
  if st.azureConnection = false then
    (.error "Azure DevOps connection not initialized", [])
  else
    match st.adapter.getRepositories project with
    | .ok text => (.ok text, [.getRepositories project])
    | .error e => (.error ("Failed to list repositories: " ++ e), [.getRepositories project])

/-- `getRepositoryDirect` (lines 227-250). -/
def getRepositoryDirect (st : ServerState) (repositoryId : Json) (project : Option Json) :
    DirectResult :=
  if st.azureConnection = false then
    (.error "Azure DevOps connection not initialized", [])
  else
    match st.adapter.getRepository repositoryId project with
    | .ok text => (.ok text, [.getRepository repositoryId project])
    | .error e =>
        (.error ("Failed to get repository " ++ jsDisplay repositoryId ++ ": " ++ e),
         [.getRepository repositoryId project])

/-- An apostrophe character, used in the search placeholder text. -/
def apos : String := String.singleton (Char.ofNat 39)

/-- The placeholder text returned by `searchRepositoryCodeDirect`
(lines 261-267), rendered with template-literal semantics. -/
def searchPlaceholder (searchText : Json) (project repository : Option Json) : String :=
  "Code search functionality requires direct REST API implementation.\n" ++
  "Search text: \"" ++ jsDisplay searchText ++ "\"\n" ++
  "Project: " ++ jsOrDisplay project "All projects" ++ "\n" ++
  "Repository: " ++ jsOrDisplay repository "All repositories" ++ "\n\n" ++
  "Note: The Azure DevOps Node API doesn" ++ apos ++ "t expose the Search API directly. " ++
  "To implement this, you would need to make direct REST API calls to:\n" ++
  "POST https://almsearch.dev.azure.com/{organization}/{project}/_apis/search/codesearchresults?api-version=7.1"

/-- `searchRepositoryCodeDirect` (lines 252-272): after the connection check,
the handler returns the placeholder text without any adapter call — the
search capability does not exist upstream. -/
def searchRepositoryCodeDirect (st : ServerState) (searchText : Json)
    (project repository : Option Json) : DirectResult :=
  if st.azureConnection = false then
    (.error "Azure DevOps connection not initialized", [])
  else
    (.ok (searchPlaceholder searchText project repository), [])

/-! ## JSON-RPC response envelopes

Every branch of the POST /sse handler builds its response object with the
same shape: `jsonrpc: '2.0'`, the id, and either a `result` or an `error`
member.  `res.json` serialises with `JSON.stringify`, which drops a key whose
value is `undefined`, so a response built from a request without an `id`
carries no `id` key. -/

/-- A JSON-RPC error object `{code, message, data?}`; the `data` key is
present only on the tool-execution error path. -/
def errObj (code : Int) (message : String) (data : Option String) : Json :=
  jsonObj [("code", some (.num code)), ("message", some (.str message)),
           ("data", data.map .str)]

/-- A success envelope `{jsonrpc: '2.0', id, result}`. -/
def respOk (rid : Option Json) (result : Json) : Json :=
  jsonObj [("jsonrpc", some (.str "2.0")), ("id", rid), ("result", some result)]

/-- An error envelope `{jsonrpc: '2.0', id, error}`. -/
def respErr (rid : Option Json) (code : Int) (message : String) (data : Option String) :
    Json :=
  jsonObj [("jsonrpc", some (.str "2.0")), ("id", rid),
           ("error", some (errObj code message data))]

/-- The id used on both -32600 rejection paths: `mcpRequest?.id || null`
(a falsy id — absent, null, 0, empty string, false — becomes `null`). -/
def idOrNull (body : Json) : Json :=
  match lookupJson body "id" with
  | some v => if jsTruthy v then v else .null
  | none => .null

/-- A schema property descriptor `{type, description}`. -/
def schemaProp (ty description : String) : Json :=
  .obj [("type", .str ty), ("description", .str description)]

/-- A tool descriptor `{name, description, inputSchema}`. -/
def toolDescriptor (name description : String) (props : List (String × Json))
    (required : Option (List String)) : Json :=
  .obj [("name", .str name), ("description", .str description),
        ("inputSchema", jsonObj
          [("type", some (.str "object")),
           ("properties", some (.obj props)),
           ("required", required.map (fun l => .arr (l.map .str)))])]

/-- The fixed `tools/list` result (lines 430-529): the full registry of the
eight tool descriptors, verbatim. -/
def toolsListResult : Json :=
  .obj [("tools", .arr
    [toolDescriptor "get_work_item" "Get a work item by ID"
       [("workItemId", schemaProp "number" "Work item ID")]
       (some ["workItemId"]),
     toolDescriptor "list_projects" "List all projects in Azure DevOps"
       [] none,
     toolDescriptor "get_project" "Get details of a specific project"
       [("projectId", schemaProp "string" "Project ID or name")]
       (some ["projectId"]),
     toolDescriptor "create_work_item" "Create a new work item"
       [("project", schemaProp "string" "Project name or ID"),
        ("type", schemaProp "string" "Work item type (e.g., Task, Bug, User Story)"),
        ("title", schemaProp "string" "Work item title"),
        ("description", schemaProp "string" "Work item description (optional)"),
        ("assignedTo", schemaProp "string" "Assigned to user email (optional)")]
       (some ["project", "type", "title"]),
     toolDescriptor "query_work_items" "Query work items using WIQL"
       [("wiql", schemaProp "string" "WIQL query string"),
        ("project", schemaProp "string" "Project name or ID (optional)")]
       (some ["wiql"]),
     toolDescriptor "list_repositories" "List all repositories"
       [("project", schemaProp "string" "Project name or ID (optional)")]
       none,
     toolDescriptor "get_repository" "Get details of a specific repository"
       [("repositoryId", schemaProp "string" "Repository ID or name"),
        ("project", schemaProp "string" "Project name or ID (optional)")]
       (some ["repositoryId"]),
     toolDescriptor "search_repository_code" "Search for code in repositories"
       [("searchText", schemaProp "string" "Search text"),
        ("project", schemaProp "string" "Project name or ID (optional)"),
        ("repository", schemaProp "string" "Repository name or ID (optional)")]
       (some ["searchText"])])]

/-- The argument names a named tool's input schema declares `required`,
extracted from the registry (empty for unknown tools and for tools whose
schema has no `required` list). -/
def schemaRequired (name : String) : List String :=
  let tools := match lookupJson toolsListResult "tools" with
    | some (.arr l) => l
    | _ => []
  match tools.find? (fun t =>
      match lookupJson t "name" with
      | some (.str n) => n == name
      | _ => false) with
  | some t =>
      match lookupJson t "inputSchema" with
      | some schema =>
          match lookupJson schema "required" with
          | some (.arr l) => l.filterMap (fun v =>
              match v with
              | .str s => some s
              | _ => none)
          | _ => []
      | _ => []
  | none => []

/-- The `initialize` result (lines 412-426). -/
def initResult : Json :=
  .obj [("protocolVersion", .str "2024-11-05"),
        ("capabilities", .obj
          [("tools", .obj []),
           ("transport", .obj [("name", .str "streamable-https"),
                               ("supported", .bool true)])]),
        ("serverInfo", .obj
          [("name", .str "azure-devops-mcp-simple"),
           ("version", .str "1.0.0"),
           ("transport", .str "streamable-https")])]

/-- The `hello` method result (lines 650-654). -/
def helloResult : Json :=
  .obj [("serverName", .str "azure-devops-mcp-simple"),
        ("serverVersion", .str "1.0.0"),
        ("transport", .str "streamable-https")]

/-- A successful Tool Invocation Result: one text content block. -/
def toolContent (text : String) : Json :=
  .obj [("content", .arr [.obj [("type", .str "text"), ("text", .str text)]])]

/-- The `tools/call` switch (lines 534-602): reads `params?.name` and
`params?.arguments || {}`, validates each required argument by truthiness,
and invokes the matching Direct handler; an unknown or absent tool name
falls through to a thrown unsupported-tool message. -/
def handleToolsCall (st : ServerState) (params : Option Json) : DirectResult :=
  let toolName := params.bind (fun p => lookupJson p "name")
  let args := match params.bind (fun p => lookupJson p "arguments") with
    | some v => if jsTruthy v then v else .obj []
    | none => .obj []
  match toolName with
  | some (.str "get_work_item") =>
      match lookupJson args "workItemId" with
      | some v =>
          if jsTruthy v then getWorkItemDirect st v
          else (.error "workItemId is required", [])
      | none => (.error "workItemId is required", [])
  | some (.str "list_projects") => listProjectsDirect st
  | some (.str "get_project") =>
      match lookupJson args "projectId" with
      | some v =>
          if jsTruthy v then getProjectDirect st v
          else (.error "projectId is required", [])
      | none => (.error "projectId is required", [])
  | some (.str "create_work_item") =>
      if jsTruthyOpt (lookupJson args "project") &&
         jsTruthyOpt (lookupJson args "type") &&
         jsTruthyOpt (lookupJson args "title") then
        createWorkItemDirect st
          ((lookupJson args "project").getD .null)
          ((lookupJson args "type").getD .null)
          ((lookupJson args "title").getD .null)
          (lookupJson args "description")
          (lookupJson args "assignedTo")
      else (.error "project, type, and title are required", [])
  | some (.str "query_work_items") =>
      match lookupJson args "wiql" with
      | some v =>
          if jsTruthy v then queryWorkItemsDirect st v (lookupJson args "project")
          else (.error "wiql is required", [])
      | none => (.error "wiql is required", [])
  | some (.str "list_repositories") => listRepositoriesDirect st (lookupJson args "project")
  | some (.str "get_repository") =>
      match lookupJson args "repositoryId" with
      | some v =>
          if jsTruthy v then getRepositoryDirect st v (lookupJson args "project")
          else (.error "repositoryId is required", [])
      | none => (.error "repositoryId is required", [])
  | some (.str "search_repository_code") =>
      match lookupJson args "searchText" with
      | some v =>
          if jsTruthy v then
            searchRepositoryCodeDirect st v
              (lookupJson args "project") (lookupJson args "repository")
          else (.error "searchText is required", [])
      | none => (.error "searchText is required", [])
  | other => (.error ("Tool " ++ jsDisplayOpt other ++ " not supported"), [])

/-- The POST /sse JSON-RPC dispatcher (lines 361-681): the three envelope
checks in source order (`jsonrpc` presence, error-field acknowledgment,
`method` presence), then dispatch by strict string match on `method`.
The result is the HTTP status code, the response envelope, and the list of
Backend Client Adapter capabilities invoked while handling the request. -/
def handlePost (st : ServerState) (body : Json) : Nat × Json × List AdapterCall :=
  if !jsTruthy body || !jsTruthyOpt (lookupJson body "jsonrpc") then
    (400, respErr (some (idOrNull body)) (-32600) "Invalid Request" none, [])
  else if jsTruthyOpt (lookupJson body "error") then
    (200, respOk (lookupJson body "id") (.obj [("acknowledged", .bool true)]), [])
  else if !jsTruthyOpt (lookupJson body "method") then
    (400, respErr (some (idOrNull body)) (-32600) "Missing method" none, [])
  else
    let rid := lookupJson body "id"
    match lookupJson body "method" with
    | some (.str "initialize") => (200, respOk rid initResult, [])
    | some (.str "tools/list") => (200, respOk rid toolsListResult, [])
    | some (.str "tools/call") =>
        match handleToolsCall st (lookupJson body "params") with
        | (.ok text, calls) => (200, respOk rid (toolContent text), calls)
        | (.error msg, calls) =>
            (200, respErr rid (-32603) "Internal error executing tool" (some msg), calls)
    | some (.str "notifications/initialized") => (200, respOk rid (.obj []), [])
    | some (.str "ping") =>
        (200, respOk rid (.obj [("timestamp", .str st.timestamp)]), [])
    | some (.str "hello") => (200, respOk rid helloResult, [])
    | _ => (200, respErr rid (-32601) "Method not found" none, [])

/-- The six methods the dispatcher recognises (spec section 1). -/
def fixedMethodTable : List String :=
  ["initialize", "tools/list", "tools/call", "notifications/initialized", "ping", "hello"]

/-! ## GET /sse stream and heartbeat life cycle

The GET /sse handler (lines 309-358) writes an `endpoint` event, then a
`message` event carrying the hello notification, then schedules a heartbeat
comment every 30 seconds; a heartbeat write failure or the connection's
`close` event cancels the timer.  The stream is modelled as a list of
emitted events and the heartbeat/disconnect life cycle as a step machine. -/

/-- An event written on the SSE stream. -/
inductive SSEEvent where
  | endpoint (data : String)
  | message (data : Json)
  | heartbeatComment (t : Nat)

/-- The hello notification (lines 330-339); `Date.now()` is the `now`
parameter. -/
def helloMessage (sid : String) (now : Nat) : Json :=
  .obj [("jsonrpc", .str "2.0"), ("method", .str "hello"),
        ("params", .obj [("sessionId", .str sid),
                         ("serverName", .str "azure-devops-mcp-simple"),
                         ("serverVersion", .str "1.0.0")]),
        ("id", .str ("hello-" ++ toString now))]

/-- The two writes the handler performs immediately on connection open:
the session-scoped endpoint event, then the hello message event. -/
def initialSSEWrites (sid : String) (now : Nat) : List SSEEvent :=
  [.endpoint ("/message?sessionId=" ++ sid), .message (helloMessage sid now)]

/-- The fixed heartbeat period, in milliseconds (`setInterval(..., 30000)`). -/
def heartbeatPeriodMs : Nat := 30000

/-- Liveness phase of an SSE session (spec section 4.1 state machine). -/
inductive SessionPhase where
  | opened
  | closed

/-- An occurrence in a session's life: a heartbeat timer tick (with whether
the stream write succeeds) or the connection's close event. -/
inductive SessionEvent where
  | tick (t : Nat) (writeOk : Bool)
  | clientClose

/-- One step of the heartbeat/disconnect life cycle: a successful tick in the
open phase emits a heartbeat comment; a failed heartbeat write is caught and
answered only by `clearInterval` (no escalation, no rescheduling); the close
event also cancels the timer; the closed phase reacts to nothing. -/
def sessionStep : SessionPhase → SessionEvent → SessionPhase × Option SSEEvent
  | .opened, .tick t true => (.opened, some (.heartbeatComment t))
  | .opened, .tick _ false => (.closed, none)
  | .opened, .clientClose => (.closed, none)
  | .closed, _ => (.closed, none)

/-- Run the session life cycle over a list of occurrences, collecting the
emitted stream events. -/
def runSession : SessionPhase → List SessionEvent → List SSEEvent
  | _, [] => []
  | p, e :: es => (sessionStep p e).2.toList ++ runSession (sessionStep p e).1 es

/-- The full event trace of one GET /sse connection: the immediate writes,
then whatever the heartbeat life cycle emits. -/
def sseConnectionTrace (sid : String) (now : Nat) (evs : List SessionEvent) :
    List SSEEvent :=
  initialSSEWrites sid now ++ runSession .opened evs

/-- The timer schedule produced by `setInterval`: ticks at 30-second
multiples after connection open, all writes succeeding. -/
def heartbeatSchedule (now n : Nat) : List SessionEvent :=
  (List.range n).map (fun k => .tick (now + heartbeatPeriodMs * (k + 1)) true)

/-- An adapter oracle whose capabilities all succeed with empty text;
used to instantiate concrete states in witnesses. -/
def trivialAdapter : Adapter where
  getWorkItem := fun _ => .ok ""
  getProjects := .ok ""
  getProject := fun _ => .ok ""
  createWorkItem := fun _ _ _ _ _ => .ok ""
  queryByWiql := fun _ => .ok []
  getWorkItems := fun _ => .ok ""
  getRepositories := fun _ => .ok ""
  getRepository := fun _ _ => .ok ""

/-- A concrete state with an initialized connection. -/
def stDefault : ServerState :=
  { azureConnection := true, adapter := trivialAdapter, timestamp := "t0" }

/-- A concrete state whose `azureConnection` is null (credentials absent at
startup). -/
def stNoConn : ServerState :=
  { stDefault with azureConnection := false }

/-- A `tools/call` request body naming a tool and carrying an arguments
object. -/
def toolsCallBody (rid : Json) (tool : String) (args : Json) : Json :=
  .obj [("jsonrpc", .str "2.0"), ("id", rid), ("method", .str "tools/call"),
        ("params", .obj [("name", .str tool), ("arguments", args)])]

/-- A `tools/list` request body. -/
def toolsListBody (rid : Json) : Json :=
  .obj [("jsonrpc", .str "2.0"), ("id", rid), ("method", .str "tools/list")]

/-- The (tool, required-argument) pairs checked by the `tools/call` switch
(lines 539-601); related to the registry's declared schemas in the C1
theorem below. -/
def requiredPairs : List (String × String) :=
  [("get_work_item", "workItemId"), ("get_project", "projectId"),
   ("create_work_item", "project"), ("create_work_item", "type"),
   ("create_work_item", "title"), ("query_work_items", "wiql"),
   ("get_repository", "repositoryId"), ("search_repository_code", "searchText")]

/-- The message of the error thrown by the switch when a tool's required
argument is missing or falsy (it lands in the response's `data` member). -/
def requiredErrorMsg : String → String
  | "get_work_item" => "workItemId is required"
  | "get_project" => "projectId is required"
  | "create_work_item" => "project, type, and title are required"
  | "query_work_items" => "wiql is required"
  | "get_repository" => "repositoryId is required"
  | "search_repository_code" => "searchText is required"
  | _ => ""

/-- The eight tool names of the registry. -/
def toolNameTable : List String :=
  ["get_work_item", "list_projects", "get_project", "create_work_item",
   "query_work_items", "list_repositories", "get_repository", "search_repository_code"]

/-- A member of the envelope's error object (e.g. its `code` or `message`). -/
def errMember (env : Json) (k : String) : Option Json :=
  (lookupJson env "error").bind (fun e => lookupJson e k)

/-- Recogniser for `endpoint` events on the SSE stream. -/
def isEndpointWrite : SSEEvent → Bool
  | .endpoint _ => true
  | _ => false

/-- Recogniser for `message` events on the SSE stream. -/
def isMessageWrite : SSEEvent → Bool
  | .message _ => true
  | _ => false

/-! ## Helper lemmas -/

theorem lookupJson_obj_cons (k : String) (v : Json) (rest : List (String × Json))
    (key : String) :
    lookupJson (.obj ((k, v) :: rest)) key =
      if k = key then some v else lookupJson (.obj rest) key := rfl

theorem lookupJson_obj_nil (key : String) : lookupJson (.obj []) key = none := rfl

theorem jsTruthyOpt_none : jsTruthyOpt none = false := rfl

theorem jsTruthyOpt_some (v : Json) : jsTruthyOpt (some v) = jsTruthy v := rfl

theorem lookupJson_respOk_id (rid : Option Json) (r : Json) :
    lookupJson (respOk rid r) "id" = rid := by
  cases rid <;> rfl

theorem lookupJson_respErr_id (rid : Option Json) (c : Int) (m : String)
    (d : Option String) :
    lookupJson (respErr rid c m d) "id" = rid := by
  cases rid <;> rfl

theorem lookupJson_respOk_result (rid : Option Json) (r : Json) :
    lookupJson (respOk rid r) "result" = some r := by
  cases rid <;> rfl

theorem lookupJson_respOk_error (rid : Option Json) (r : Json) :
    lookupJson (respOk rid r) "error" = none := by
  cases rid <;> rfl

theorem lookupJson_respErr_result (rid : Option Json) (c : Int) (m : String)
    (d : Option String) :
    lookupJson (respErr rid c m d) "result" = none := by
  cases rid <;> cases d <;> rfl

theorem lookupJson_respErr_error (rid : Option Json) (c : Int) (m : String)
    (d : Option String) :
    lookupJson (respErr rid c m d) "error" = some (errObj c m d) := by
  cases rid <;> rfl

theorem jsTruthy_of_lookup (body : Json) (k : String)
    (h : jsTruthyOpt (lookupJson body k) = true) : jsTruthy body = true := by
  cases body <;> first
  | rfl
  | simp [lookupJson, jsTruthyOpt] at h

theorem jsTruthy_of_lookup_some (args : Json) (k : String) (v : Json)
    (h : lookupJson args k = some v) : jsTruthy args = true := by
  cases args <;> first
  | rfl
  | simp [lookupJson] at h

theorem handlePost_toolsCallBody (st : ServerState) (rid : Json) (tool : String)
    (args : Json) :
    handlePost st (toolsCallBody rid tool args) =
      (match handleToolsCall st
          (some (.obj [("name", .str tool), ("arguments", args)])) with
       | (.ok text, calls) => (200, respOk (some rid) (toolContent text), calls)
       | (.error msg, calls) =>
           (200, respErr (some rid) (-32603) "Internal error executing tool"
             (some msg), calls)) := by
  simp [handlePost, toolsCallBody, lookupJson, lookupList, jsTruthy, jsTruthyOpt]

/-- Exactly one of the `result` and `error` members is present. -/
def hasExactlyOneOutcome (env : Json) : Prop :=
  ((lookupJson env "result").isSome = true ∧ lookupJson env "error" = none) ∨
  (lookupJson env "result" = none ∧ (lookupJson env "error").isSome = true)

theorem hasExactlyOneOutcome_respOk (rid : Option Json) (r : Json) :
    hasExactlyOneOutcome (respOk rid r) :=
  Or.inl ⟨by simp [lookupJson_respOk_result], by simp [lookupJson_respOk_error]⟩

theorem hasExactlyOneOutcome_respErr (rid : Option Json) (c : Int) (m : String)
    (d : Option String) : hasExactlyOneOutcome (respErr rid c m d) :=
  Or.inr ⟨by simp [lookupJson_respErr_result], by simp [lookupJson_respErr_error]⟩

theorem runSession_all_ok (ts : List Nat) :
    runSession .opened (ts.map (fun t => SessionEvent.tick t true)) =
      ts.map (fun t => SSEEvent.heartbeatComment t) := by
  induction ts with
  | nil => rfl
  | cons t ts ih => simp [runSession, sessionStep, ih]

theorem sessionStep_closed (e : SessionEvent) :
    sessionStep .closed e = (.closed, none) := by
  cases e with
  | tick t ok => cases ok <;> rfl
  | clientClose => rfl

theorem runSession_closed (evs : List SessionEvent) : runSession .closed evs = [] := by
  induction evs with
  | nil => rfl
  | cons e es ih => simp [runSession, sessionStep_closed, ih]

/-! ## Claim C1 -/

/-- C1, counterexample.  For a `tools/call` of `get_work_item` that omits the
required `workItemId`, the dispatcher does return a -32603 error, but the
error object's `message` member is the fixed text
"Internal error executing tool", which does not identify the missing field
(the field is named only in the `data` member).  This refutes the claim that
the error's message identifies the missing field. -/
theorem c1_generic_message_counterexample :
    errMember (handlePost stDefault
        (toolsCallBody (.num 1) "get_work_item" (.obj []))).2.1 "code" =
      some (.num (-32603)) ∧
    errMember (handlePost stDefault
        (toolsCallBody (.num 1) "get_work_item" (.obj []))).2.1 "message" =
      some (.str "Internal error executing tool") ∧
    strContains "Internal error executing tool" "workItemId" = false ∧
    errMember (handlePost stDefault
        (toolsCallBody (.num 1) "get_work_item" (.obj []))).2.1 "data" =
      some (.str "workItemId is required") :=
  ⟨rfl, rfl, rfl, rfl⟩

/-- C1, amended.  The (tool, field) pairs checked by the switch are exactly
the pairs the registry's input schemas declare `required`, and for every
`tools/call` naming such a tool with that field absent from `arguments`, the
response is a -32603 error whose `data` member names the missing field (the
`message` member is the generic "Internal error executing tool"), and no
Backend Client Adapter capability is invoked. -/
theorem c1_missing_required_rejected :
    (∀ p ∈ requiredPairs, p.2 ∈ schemaRequired p.1) ∧
    (∀ t ∈ toolNameTable, ∀ f ∈ schemaRequired t, (t, f) ∈ requiredPairs) ∧
    ∀ st : ServerState, ∀ rid : Json, ∀ t f : String, ∀ args : Json,
      (t, f) ∈ requiredPairs → lookupJson args f = none →
      handlePost st (toolsCallBody rid t args) =
        (200, respErr (some rid) (-32603) "Internal error executing tool"
          (some (requiredErrorMsg t)), []) ∧
      strContains (requiredErrorMsg t) f = true := by
  refine ⟨by decide, by decide, ?_⟩
  intro st rid t f args hp hnone
  simp only [requiredPairs, List.mem_cons, List.not_mem_nil, or_false,
    Prod.mk.injEq] at hp
  rcases hp with ⟨ht, hf⟩ | ⟨ht, hf⟩ | ⟨ht, hf⟩ | ⟨ht, hf⟩ | ⟨ht, hf⟩ | ⟨ht, hf⟩ |
    ⟨ht, hf⟩ | ⟨ht, hf⟩ <;> subst ht <;> subst hf <;>
    refine ⟨?_, rfl⟩ <;>
    rw [handlePost_toolsCallBody] <;>
    cases hja : jsTruthy args <;>
    simp [handleToolsCall, lookupJson_obj_cons, lookupJson_obj_nil, jsTruthyOpt,
      requiredErrorMsg, hja, hnone]

/-- C1, witness: `query_work_items` with empty arguments. -/
theorem c1_missing_required_rejected_witness :
    handlePost stDefault (toolsCallBody (.num 2) "query_work_items" (.obj [])) =
      (200, respErr (some (.num 2)) (-32603) "Internal error executing tool"
        (some (requiredErrorMsg "query_work_items")), []) ∧
    strContains (requiredErrorMsg "query_work_items") "wiql" = true :=
  c1_missing_required_rejected.2.2 stDefault (.num 2) "query_work_items" "wiql"
    (.obj []) (by decide) rfl

/-! ## Claim C2 -/

/-- C2, counterexample.  A body with `jsonrpc` present and `id: 0` but no
`method` takes the -32600 path, whose id is `mcpRequest?.id || null`: the
falsy `0` is replaced by `null`, so the response id is not the request id
verbatim. -/
theorem c2_falsy_id_counterexample :
    lookupJson (.obj [("jsonrpc", .str "2.0"), ("id", .num 0)]) "id" = some (.num 0) ∧
    lookupJson (handlePost stDefault
        (.obj [("jsonrpc", .str "2.0"), ("id", .num 0)])).2.1 "id" = some .null ∧
    some Json.null ≠ some (Json.num 0) := by
  refine ⟨rfl, rfl, ?_⟩
  simp

/-- C2, amended.  For every request that passes the `jsonrpc` check and is
either acknowledged via its `error` field or dispatched via a truthy
`method`, the response envelope's `id` equals the request's `id` verbatim —
including `null`, and including an absent id (the response then carries no
id key).  Only on the two -32600 malformation paths is a falsy id (such as
`0` or `""`) replaced by `null`. -/
theorem c2_id_echoed_on_dispatch (st : ServerState) (body : Json)
    (hj : jsTruthyOpt (lookupJson body "jsonrpc") = true)
    (hd : jsTruthyOpt (lookupJson body "error") = true ∨
          jsTruthyOpt (lookupJson body "method") = true) :
    lookupJson (handlePost st body).2.1 "id" = lookupJson body "id" := by
  have hb : jsTruthy body = true := jsTruthy_of_lookup body "jsonrpc" hj
  unfold handlePost
  rw [hb, hj]
  simp only [Bool.not_true, Bool.or_self, Bool.false_or, if_false, Bool.false_eq_true,
    ite_false]
  by_cases he : jsTruthyOpt (lookupJson body "error") = true
  · simp only [he, if_true]
    exact lookupJson_respOk_id _ _
  · have hm : jsTruthyOpt (lookupJson body "method") = true := by
      rcases hd with h | h
      · exact absurd h he
      · exact h
    simp only [he, hm, Bool.not_true, if_false, Bool.false_eq_true, ite_false, if_true]
    split
    · exact lookupJson_respOk_id _ _
    · exact lookupJson_respOk_id _ _
    · split
      · exact lookupJson_respOk_id _ _
      · exact lookupJson_respErr_id _ _ _ _
    · exact lookupJson_respOk_id _ _
    · exact lookupJson_respOk_id _ _
    · exact lookupJson_respOk_id _ _
    · exact lookupJson_respErr_id _ _ _ _

/-- C2, witness: a `ping` request with `id: null` gets `id: null` back. -/
theorem c2_id_echoed_on_dispatch_witness :
    lookupJson (handlePost stDefault
        (.obj [("jsonrpc", .str "2.0"), ("id", .null), ("method", .str "ping")])).2.1
        "id" =
      lookupJson (.obj [("jsonrpc", .str "2.0"), ("id", .null), ("method", .str "ping")])
        "id" :=
  c2_id_echoed_on_dispatch stDefault _ rfl (Or.inr rfl)

/-! ## Claim C3 -/

/-- C3, counterexample.  The empty string is a method string outside the
fixed table, yet the dispatcher answers it with code -32600 and HTTP 400
(the `!mcpRequest.method` truthiness check fires), not -32601 with 200 as
the claim states. -/
theorem c3_empty_method_counterexample :
    lookupJson (.obj [("jsonrpc", .str "2.0"), ("method", .str ""), ("id", .num 7)])
        "method" = some (.str "") ∧
    "" ∉ fixedMethodTable ∧
    (handlePost stDefault
        (.obj [("jsonrpc", .str "2.0"), ("method", .str ""), ("id", .num 7)])).1 = 400 ∧
    errMember (handlePost stDefault
        (.obj [("jsonrpc", .str "2.0"), ("method", .str ""), ("id", .num 7)])).2.1
        "code" = some (.num (-32600)) :=
  ⟨rfl, by decide, rfl, rfl⟩

/-- C3, amended.  For every request passing the `jsonrpc` check, carrying no
truthy `error` field, whose `method` is a non-empty string outside the fixed
table, the dispatcher returns code exactly -32601 with HTTP status 200;
whereas an absent body, a body whose `jsonrpc` is absent or falsy, or a body
whose `method` is absent yields code -32600 with HTTP status 400. -/
theorem c3_unknown_method_32601 :
    (∀ (st : ServerState) (body : Json) (m : String),
       jsTruthyOpt (lookupJson body "jsonrpc") = true →
       jsTruthyOpt (lookupJson body "error") = false →
       lookupJson body "method" = some (.str m) →
       m ≠ "" → m ∉ fixedMethodTable →
       handlePost st body =
         (200, respErr (lookupJson body "id") (-32601) "Method not found" none, [])) ∧
    (∀ st : ServerState, handlePost st .null =
       (400, respErr (some .null) (-32600) "Invalid Request" none, [])) ∧
    (∀ (st : ServerState) (body : Json),
       jsTruthyOpt (lookupJson body "jsonrpc") = false →
       handlePost st body =
         (400, respErr (some (idOrNull body)) (-32600) "Invalid Request" none, [])) ∧
    (∀ (st : ServerState) (body : Json),
       jsTruthyOpt (lookupJson body "jsonrpc") = true →
       jsTruthyOpt (lookupJson body "error") = false →
       lookupJson body "method" = none →
       handlePost st body =
         (400, respErr (some (idOrNull body)) (-32600) "Missing method" none, [])) := by
  refine ⟨?_, fun _ => rfl, ?_, ?_⟩
  · intro st body m hj he hm hne hnt
    have hb := jsTruthy_of_lookup body "jsonrpc" hj
    have hmt : jsTruthyOpt (lookupJson body "method") = true := by
      rw [hm]; simpa [jsTruthyOpt, jsTruthy] using hne
    simp only [handlePost, hb, hj, he, hmt, hm, Bool.not_true, Bool.or_self,
      Bool.false_eq_true, if_false, ite_false, Bool.not_false]
    split <;> simp_all [fixedMethodTable]
  · intro st body hj
    simp [handlePost, hj]
  · intro st body hj he hm
    have hb := jsTruthy_of_lookup body "jsonrpc" hj
    simp [handlePost, hb, hj, he, hm, jsTruthyOpt_none]

/-- C3, witness: an unknown non-empty method. -/
theorem c3_unknown_method_32601_witness :
    handlePost stDefault
        (.obj [("jsonrpc", .str "2.0"), ("id", .num 8), ("method", .str "frobnicate")]) =
      (200, respErr (some (.num 8)) (-32601) "Method not found" none, []) :=
  c3_unknown_method_32601.1 stDefault _ "frobnicate" rfl rfl rfl (by decide) (by decide)

/-! ## Claim C4 -/

/-- C4.  Every response envelope the dispatcher produces carries exactly one
of `result` and `error` — never both, never neither — and a `tools/call`
request either fully succeeds with one text content block or fully fails
with one -32603 error object. -/
theorem c4_exactly_one_outcome : ∀ (st : ServerState) (body : Json),
    hasExactlyOneOutcome (handlePost st body).2.1 ∧
    ((jsTruthyOpt (lookupJson body "jsonrpc") = true ∧
      jsTruthyOpt (lookupJson body "error") = false ∧
      lookupJson body "method" = some (.str "tools/call")) →
     (∃ text calls, handlePost st body =
        (200, respOk (lookupJson body "id") (toolContent text), calls)) ∨
     (∃ msg calls, handlePost st body =
        (200, respErr (lookupJson body "id") (-32603) "Internal error executing tool"
          (some msg), calls))) := by
  intro st body
  constructor
  · unfold handlePost
    split
    · exact hasExactlyOneOutcome_respErr _ _ _ _
    · split
      · exact hasExactlyOneOutcome_respOk _ _
      · split
        · exact hasExactlyOneOutcome_respErr _ _ _ _
        · split
          · exact hasExactlyOneOutcome_respOk _ _
          · exact hasExactlyOneOutcome_respOk _ _
          · split
            · exact hasExactlyOneOutcome_respOk _ _
            · exact hasExactlyOneOutcome_respErr _ _ _ _
          · exact hasExactlyOneOutcome_respOk _ _
          · exact hasExactlyOneOutcome_respOk _ _
          · exact hasExactlyOneOutcome_respOk _ _
          · exact hasExactlyOneOutcome_respErr _ _ _ _
  · rintro ⟨hj, he, hm⟩
    have hb := jsTruthy_of_lookup body "jsonrpc" hj
    have hred : (!jsTruthyOpt (some (Json.str "tools/call"))) = false := rfl
    simp only [handlePost, hb, hj, he, hm, hred, Bool.not_true, Bool.or_self,
      Bool.false_eq_true, if_false, ite_false, Bool.not_false]
    rcases hres : handleToolsCall st (lookupJson body "params") with ⟨res, calls⟩
    cases res with
    | ok text => exact Or.inl ⟨text, calls, rfl⟩
    | error msg => exact Or.inr ⟨msg, calls, rfl⟩

/-- C4, witness: a concrete `tools/call`. -/
theorem c4_exactly_one_outcome_witness :
    hasExactlyOneOutcome (handlePost stDefault
        (toolsCallBody (.num 6) "list_projects" (.obj []))).2.1 ∧
    ((∃ text calls,
        handlePost stDefault (toolsCallBody (.num 6) "list_projects" (.obj [])) =
          (200, respOk (lookupJson (toolsCallBody (.num 6) "list_projects" (.obj [])) "id")
            (toolContent text), calls)) ∨
     (∃ msg calls,
        handlePost stDefault (toolsCallBody (.num 6) "list_projects" (.obj [])) =
          (200, respErr (lookupJson (toolsCallBody (.num 6) "list_projects" (.obj [])) "id")
            (-32603) "Internal error executing tool" (some msg), calls))) :=
  ⟨(c4_exactly_one_outcome stDefault _).1,
   (c4_exactly_one_outcome stDefault _).2 ⟨rfl, rfl, rfl⟩⟩

/-! ## Claim C5 -/

/-- C5, counterexample.  A body carrying the `error` key with the falsy value
`null` is not acknowledged: the `if (mcpRequest.error)` truthiness check does
not fire, and the request falls through to the missing-method rejection.
This refutes the claim for bodies that carry a falsy `error` field. -/
theorem c5_falsy_error_field_counterexample :
    lookupJson (.obj [("jsonrpc", .str "2.0"), ("error", .null), ("id", .num 1)])
        "error" = some .null ∧
    (handlePost stDefault
        (.obj [("jsonrpc", .str "2.0"), ("error", .null), ("id", .num 1)])).1 = 400 ∧
    lookupJson (handlePost stDefault
        (.obj [("jsonrpc", .str "2.0"), ("error", .null), ("id", .num 1)])).2.1
        "result" = none :=
  ⟨rfl, rfl, rfl⟩

/-- C5, amended.  For every body that passes the `jsonrpc` check and carries
a truthy `error` field, the dispatcher responds `{result: {acknowledged:
true}}` with the peer's `id` verbatim, without dispatching on `method` and
without any backend call; and the `jsonrpc` check does come first: a body
whose `jsonrpc` is falsy is rejected -32600 whatever else it carries.
(That the acknowledgment precedes the missing-method check is witnessed by
the first part placing no constraint at all on `method`.) -/
theorem c5_error_acknowledgment :
    (∀ (st : ServerState) (body : Json),
       jsTruthyOpt (lookupJson body "jsonrpc") = true →
       jsTruthyOpt (lookupJson body "error") = true →
       handlePost st body =
         (200, respOk (lookupJson body "id") (.obj [("acknowledged", .bool true)]), [])) ∧
    (∀ (st : ServerState) (body : Json),
       jsTruthyOpt (lookupJson body "jsonrpc") = false →
       handlePost st body =
         (400, respErr (some (idOrNull body)) (-32600) "Invalid Request" none, [])) := by
  constructor
  · intro st body hj he
    have hb := jsTruthy_of_lookup body "jsonrpc" hj
    simp [handlePost, hb, hj, he]
  · intro st body hj
    simp [handlePost, hj]

/-- C5, witness: a truthy error field, no method, is acknowledged. -/
theorem c5_error_acknowledgment_witness :
    handlePost stDefault
        (.obj [("jsonrpc", .str "2.0"), ("id", .num 4),
               ("error", .obj [("code", .num (-1))])]) =
      (200, respOk (some (.num 4)) (.obj [("acknowledged", .bool true)]), []) :=
  c5_error_acknowledgment.1 stDefault _ rfl rfl

/-! ## Claim C6 -/

/-- C6.  `tools/list` returns the full fixed registry verbatim, with HTTP
200 and no backend call, for every server state; in particular any two
calls — against the same state or different states, hence before or after
any other dispatched method (no handler branch mutates the state) — yield
identical results. -/
theorem c6_tools_list_fixed : ∀ (st st' : ServerState) (rid : Json),
    handlePost st (toolsListBody rid) = (200, respOk (some rid) toolsListResult, []) ∧
    handlePost st (toolsListBody rid) = handlePost st' (toolsListBody rid) :=
  fun _ _ _ => ⟨rfl, rfl⟩

/-! ## Claim C7 -/

/-- C7, counterexample.  With `azureConnection` null, a `tools/call` of
`search_repository_code` with `searchText` present does not return the
placeholder as a success: `searchRepositoryCodeDirect` throws its
not-initialized error before reaching the placeholder, so the call enters
the failure path.  This refutes "regardless of the adapter/connection
state". -/
theorem c7_no_connection_counterexample :
    stNoConn.azureConnection = false ∧
    lookupJson (handlePost stNoConn (toolsCallBody (.num 3) "search_repository_code"
        (.obj [("searchText", .str "x")]))).2.1 "result" = none ∧
    errMember (handlePost stNoConn (toolsCallBody (.num 3) "search_repository_code"
        (.obj [("searchText", .str "x")]))).2.1 "code" = some (.num (-32603)) ∧
    errMember (handlePost stNoConn (toolsCallBody (.num 3) "search_repository_code"
        (.obj [("searchText", .str "x")]))).2.1 "data" =
      some (.str "Azure DevOps connection not initialized") :=
  ⟨rfl, rfl, rfl, rfl⟩

/-- C7, amended.  For every `tools/call` of `search_repository_code` with a
truthy `searchText`: when the connection is initialized the handler
unconditionally succeeds with the explanatory placeholder text and performs
no adapter call; when the connection is uninitialized it fails with the
-32603 not-initialized error (still with no adapter call). -/
theorem c7_search_placeholder : ∀ (st : ServerState) (rid args v : Json),
    lookupJson args "searchText" = some v → jsTruthy v = true →
    (st.azureConnection = true →
      handlePost st (toolsCallBody rid "search_repository_code" args) =
        (200, respOk (some rid) (toolContent (searchPlaceholder v
          (lookupJson args "project") (lookupJson args "repository"))), [])) ∧
    (st.azureConnection = false →
      handlePost st (toolsCallBody rid "search_repository_code" args) =
        (200, respErr (some rid) (-32603) "Internal error executing tool"
          (some "Azure DevOps connection not initialized"), [])) := by
  intro st rid args v hs hv
  have hja := jsTruthy_of_lookup_some args "searchText" v hs
  constructor <;> intro hc <;>
    rw [handlePost_toolsCallBody] <;>
    simp [handleToolsCall, lookupJson_obj_cons, lookupJson_obj_nil, jsTruthyOpt,
      searchRepositoryCodeDirect, hja, hs, hv, hc]

/-- C7, witness: both connection states at a concrete request. -/
theorem c7_search_placeholder_witness :
    handlePost stDefault (toolsCallBody (.num 5) "search_repository_code"
        (.obj [("searchText", .str "TODO")])) =
      (200, respOk (some (.num 5)) (toolContent (searchPlaceholder (.str "TODO")
        none none)), []) ∧
    handlePost stNoConn (toolsCallBody (.num 5) "search_repository_code"
        (.obj [("searchText", .str "TODO")])) =
      (200, respErr (some (.num 5)) (-32603) "Internal error executing tool"
        (some "Azure DevOps connection not initialized"), []) :=
  ⟨(c7_search_placeholder stDefault (.num 5) (.obj [("searchText", .str "TODO")])
      (.str "TODO") rfl rfl).1 rfl,
   (c7_search_placeholder stNoConn (.num 5) (.obj [("searchText", .str "TODO")])
      (.str "TODO") rfl rfl).2 rfl⟩

/-! ## Claim C8 -/

/-- C8.  On every GET /sse connection the stream is exactly: one `endpoint`
event (carrying the session-scoped callback path), then one `message` event
carrying the hello notification, then — only after both — heartbeat
comments at the fixed 30000 ms period (tick k at `now + 30000 * (k+1)`)
for as long as the connection lives. -/
theorem c8_sse_trace_order : ∀ (sid : String) (now n : Nat),
    sseConnectionTrace sid now (heartbeatSchedule now n) =
      SSEEvent.endpoint ("/message?sessionId=" ++ sid) ::
      SSEEvent.message (helloMessage sid now) ::
      (List.range n).map
        (fun k => SSEEvent.heartbeatComment (now + heartbeatPeriodMs * (k + 1))) ∧
    (sseConnectionTrace sid now (heartbeatSchedule now n)).countP isEndpointWrite = 1 ∧
    (sseConnectionTrace sid now (heartbeatSchedule now n)).countP isMessageWrite = 1 ∧
    heartbeatPeriodMs = 30000 := by
  intro sid now n
  have htr : sseConnectionTrace sid now (heartbeatSchedule now n) =
      SSEEvent.endpoint ("/message?sessionId=" ++ sid) ::
      SSEEvent.message (helloMessage sid now) ::
      (List.range n).map
        (fun k => SSEEvent.heartbeatComment (now + heartbeatPeriodMs * (k + 1))) := by
    have hsched : heartbeatSchedule now n =
        ((List.range n).map (fun k => now + heartbeatPeriodMs * (k + 1))).map
          (fun t => SessionEvent.tick t true) := by
      simp [heartbeatSchedule, List.map_map, Function.comp]
    unfold sseConnectionTrace initialSSEWrites
    rw [hsched, runSession_all_ok, List.map_map]
    simp [Function.comp]
  refine ⟨htr, ?_, ?_, rfl⟩ <;>
    rw [htr] <;>
    simp [List.countP_cons, isEndpointWrite, isMessageWrite, List.countP_map,
      Function.comp, List.countP_eq_zero]

/-! ## Claim C9 -/

/-- C9.  The closed session phase is terminal: the heartbeat-write failure
and the client-close event both move the open phase to closed without
emitting anything and without escalating (the step function is total and
returns no error), every event leaves the closed phase closed with no
emission, and no run starting from the closed phase ever emits another
stream event. -/
theorem c9_closed_terminal :
    (∀ e, sessionStep .closed e = (.closed, none)) ∧
    (∀ t, sessionStep .opened (.tick t false) = (.closed, none)) ∧
    sessionStep .opened .clientClose = (.closed, none) ∧
    (∀ evs, runSession .closed evs = []) :=
  ⟨sessionStep_closed, fun _ => rfl, rfl, runSession_closed⟩

/-! ## Claim C10 -/

/-- C10.  The required-argument checks test truthiness, not presence: a
`tools/call` supplying a required argument with a falsy value — `workItemId:
0` for `get_work_item`, the empty string for `wiql`, `title` (with the other
two required fields supplied truthy), `projectId`, `repositoryId`, or
`searchText` — is rejected with the -32603 missing-argument error, with no
backend call, even though the field is present in `arguments`. -/
theorem c10_falsy_required_rejected : ∀ (st : ServerState) (rid : Json),
    handlePost st (toolsCallBody rid "get_work_item" (.obj [("workItemId", .num 0)])) =
      (200, respErr (some rid) (-32603) "Internal error executing tool"
        (some "workItemId is required"), []) ∧
    handlePost st (toolsCallBody rid "query_work_items" (.obj [("wiql", .str "")])) =
      (200, respErr (some rid) (-32603) "Internal error executing tool"
        (some "wiql is required"), []) ∧
    handlePost st (toolsCallBody rid "create_work_item"
        (.obj [("project", .str "Proj"), ("type", .str "Task"), ("title", .str "")])) =
      (200, respErr (some rid) (-32603) "Internal error executing tool"
        (some "project, type, and title are required"), []) ∧
    handlePost st (toolsCallBody rid "get_project" (.obj [("projectId", .str "")])) =
      (200, respErr (some rid) (-32603) "Internal error executing tool"
        (some "projectId is required"), []) ∧
    handlePost st (toolsCallBody rid "get_repository" (.obj [("repositoryId", .str "")])) =
      (200, respErr (some rid) (-32603) "Internal error executing tool"
        (some "repositoryId is required"), []) ∧
    handlePost st (toolsCallBody rid "search_repository_code"
        (.obj [("searchText", .str "")])) =
      (200, respErr (some rid) (-32603) "Internal error executing tool"
        (some "searchText is required"), []) :=
  fun _ _ => ⟨rfl, rfl, rfl, rfl, rfl, rfl⟩
